import Mathlib

/-!
Verification development for the viem core slice: the EIP-1193 typed RPC
schema (src/src/types/eip1193.ts), the increaseTime test action
(src/unnamed/part_001) and the client constructor (tested by
src/unnamed/part_000).

The TypeScript source is a type-level schema: a list of entries, each with a
Method name, a Parameters shape and a ReturnType shape.  We embed the shapes
as a small inductive of type descriptors, each schema table as a concrete
Lean list of entries, and the type-level operators (Extract-based narrowing,
the EIP1193Parameters union, the EIP1193RequestFn result shape) as functions
over those lists.
-/

/-- A descriptor for a TypeScript type that appears in a Parameters or
ReturnType position of the schema in src/src/types/eip1193.ts.  Each atomic
constructor names the TypeScript type it stands for; unions A | B are
written with the right-nested binary constructor orT. -/
inductive RpcType where
  | string                      -- string
  | bool                        -- boolean
  | number                      -- number
  | any                         -- any
  | null                        -- null
  | undef                       -- undefined
  | void                        -- void
  | falseLit                    -- the literal type false (eth_syncing)
  | quantity                    -- Quantity
  | hex                         -- Hex
  | hash                        -- Hash
  | address                     -- Address
  | blockNumber                 -- BlockNumber
  | blockTag                    -- BlockTag
  | blockIdentifier             -- BlockIdentifier
  | transactionRequest          -- TransactionRequest
  | block                       -- Block
  | transaction                 -- Transaction
  | transactionReceipt          -- TransactionReceipt
  | uncle                       -- Uncle
  | log                         -- Log
  | feeHistory                  -- FeeHistory
  | networkSync                 -- NetworkSync
  | addEthereumChainParameter   -- AddEthereumChainParameter
  | walletPermission            -- WalletPermission
  | watchAssetParams            -- WatchAssetParams (an object, not a tuple)
  | getLogsFilter               -- the filter object of eth_getLogs
  | newFilterCriteria           -- the filter object of eth_newFilter
  | requestedPermissions        -- the permissions object of wallet_requestPermissions
  | switchChainIdObject         -- the chainId object of wallet_switchEthereumChain
  | txpoolContentResult         -- result object of txpool_content
  | txpoolInspectResult         -- result object of txpool_inspect
  | txpoolStatusResult          -- result object of txpool_status
  | partialOf (t : RpcType)     -- Partial of t
  | listOf (t : RpcType)        -- t[]
  | orT (a b : RpcType)         -- the union a | b
deriving DecidableEq, Repr

/-- The declared Parameters field of a schema entry.  The source writes
either an optional never (no params), a labelled tuple, a union of labelled
tuples, a bare array type, an optional tuple, or (only for
wallet_watchAsset) a plain object type. -/
inductive ParamsDecl where
  | noParams                                -- Parameters?: never
  | tuple (ts : List RpcType)               -- a fixed positional tuple
  | tupleUnion (alts : List (List RpcType)) -- a union of positional tuples
  | arrayOf (t : RpcType)                   -- t[]
  | optTuple (ts : List RpcType)            -- Parameters?: a positional tuple
  | plain (t : RpcType)                     -- a non-tuple Parameters type
deriving DecidableEq, Repr

/-- One entry of an RPC schema: the shape of one method, mirroring the
object type with fields Method, Parameters, ReturnType in the source. -/
structure RpcSchemaEntry where
  Method : String
  Parameters : ParamsDecl
  ReturnType : RpcType
deriving DecidableEq, Repr

/-- A block selector: BlockNumber | BlockTag | BlockIdentifier. -/
def blockSelector : RpcType :=
  .orT .blockNumber (.orT .blockTag .blockIdentifier)

/-- PublicRpcSchema from src/src/types/eip1193.ts, entries in source order. -/
def publicRpcSchema : List RpcSchemaEntry := [
  ⟨"web3_clientVersion", .noParams, .string⟩,
  ⟨"web3_sha3", .tuple [.hash], .string⟩,
  ⟨"net_listening", .noParams, .bool⟩,
  ⟨"net_peerCount", .noParams, .quantity⟩,
  ⟨"net_version", .noParams, .quantity⟩,
  ⟨"eth_blockNumber", .noParams, .quantity⟩,
  ⟨"eth_call",
    .tupleUnion [[.partialOf .transactionRequest],
                 [.partialOf .transactionRequest, blockSelector]],
    .hex⟩,
  ⟨"eth_chainId", .noParams, .quantity⟩,
  ⟨"eth_coinbase", .noParams, .address⟩,
  ⟨"eth_estimateGas",
    .tupleUnion [[.transactionRequest],
                 [.transactionRequest, .orT .blockNumber .blockTag]],
    .quantity⟩,
  ⟨"eth_feeHistory",
    .tuple [.quantity, .orT .blockNumber .blockTag, .orT (.listOf .number) .undef],
    .feeHistory⟩,
  ⟨"eth_gasPrice", .noParams, .quantity⟩,
  ⟨"eth_getBalance", .tuple [.address, blockSelector], .quantity⟩,
  ⟨"eth_getBlockByHash", .tuple [.hash, .bool], .orT .block .null⟩,
  ⟨"eth_getBlockByNumber", .tuple [.orT .blockNumber .blockTag, .bool], .orT .block .null⟩,
  ⟨"eth_getBlockTransactionCountByHash", .tuple [.hash], .quantity⟩,
  ⟨"eth_getBlockTransactionCountByNumber", .tuple [.orT .blockNumber .blockTag], .quantity⟩,
  ⟨"eth_getCode", .tuple [.address, blockSelector], .hex⟩,
  ⟨"eth_getFilterChanges", .tuple [.quantity], .orT (.listOf .log) (.listOf .hex)⟩,
  ⟨"eth_getFilterLogs", .tuple [.quantity], .listOf .log⟩,
  ⟨"eth_getLogs", .tuple [.getLogsFilter], .listOf .log⟩,
  ⟨"eth_getStorageAt", .tuple [.address, .quantity, blockSelector], .hex⟩,
  ⟨"eth_getTransactionByBlockHashAndIndex", .tuple [.hash, .quantity], .orT .transaction .null⟩,
  ⟨"eth_getTransactionByBlockNumberAndIndex",
    .tuple [.orT .blockNumber .blockTag, .quantity], .orT .transaction .null⟩,
  ⟨"eth_getTransactionByHash", .tuple [.hash], .orT .transaction .null⟩,
  ⟨"eth_getTransactionCount", .tuple [.address, blockSelector], .quantity⟩,
  ⟨"eth_getTransactionReceipt", .tuple [.hash], .orT .transactionReceipt .null⟩,
  ⟨"eth_getUncleByBlockHashAndIndex", .tuple [.hash, .quantity], .orT .uncle .null⟩,
  ⟨"eth_getUncleByBlockNumberAndIndex",
    .tuple [.orT .blockNumber .blockTag, .quantity], .orT .uncle .null⟩,
  ⟨"eth_getUncleCountByBlockHash", .tuple [.hash], .quantity⟩,
  ⟨"eth_getUncleCountByBlockNumber", .tuple [.orT .blockNumber .blockTag], .quantity⟩,
  ⟨"eth_newBlockFilter", .noParams, .quantity⟩,
  ⟨"eth_newFilter", .tuple [.newFilterCriteria], .quantity⟩,
  ⟨"eth_newPendingTransactionFilter", .noParams, .quantity⟩,
  ⟨"eth_protocolVersion", .noParams, .string⟩,
  ⟨"eth_sendRawTransaction", .tuple [.hex], .hash⟩,
  ⟨"eth_uninstallFilter", .tuple [.quantity], .bool⟩
]

/-- WalletRpcSchema from src/src/types/eip1193.ts, entries in source order. -/
def walletRpcSchema : List RpcSchemaEntry := [
  ⟨"eth_accounts", .noParams, .listOf .address⟩,
  ⟨"eth_chainId", .noParams, .quantity⟩,
  ⟨"eth_estimateGas",
    .tupleUnion [[.transactionRequest],
                 [.transactionRequest, .orT .blockNumber .blockTag]],
    .quantity⟩,
  ⟨"eth_requestAccounts", .noParams, .listOf .address⟩,
  ⟨"eth_sendTransaction", .tuple [.transactionRequest], .hash⟩,
  ⟨"eth_sendRawTransaction", .tuple [.hex], .hash⟩,
  ⟨"eth_sign", .tuple [.address, .hex], .hex⟩,
  ⟨"eth_signTransaction", .tuple [.transactionRequest], .hex⟩,
  ⟨"eth_signTypedData_v4", .tuple [.address, .string], .hex⟩,
  ⟨"eth_syncing", .noParams, .orT .networkSync .falseLit⟩,
  ⟨"personal_sign", .tuple [.hex, .address], .hex⟩,
  ⟨"wallet_addEthereumChain", .tuple [.addEthereumChainParameter], .null⟩,
  ⟨"wallet_getPermissions", .noParams, .listOf .walletPermission⟩,
  ⟨"wallet_requestPermissions", .tuple [.requestedPermissions], .listOf .walletPermission⟩,
  ⟨"wallet_switchEthereumChain", .tuple [.switchChainIdObject], .null⟩,
  ⟨"wallet_watchAsset", .plain .watchAssetParams, .bool⟩
]

/-- TestRpcSchema from src/src/types/eip1193.ts, entries in source order.
The source is generic over a mode string TMode; methods written with the
template literal TMode followed by an underscore and a suffix become
mode ++ "_suffix" here, while methods written as plain literals (the evm_,
txpool_ and eth_sendUnsignedTransaction entries) keep their literal name. -/
def testRpcSchema (mode : String) : List RpcSchemaEntry := [
  ⟨mode ++ "_addCompilationResult", .arrayOf .any, .any⟩,
  ⟨mode ++ "_dropTransaction", .tuple [.hash], .void⟩,
  ⟨mode ++ "_enableTraces", .noParams, .void⟩,
  ⟨mode ++ "_impersonateAccount", .tuple [.address], .void⟩,
  ⟨mode ++ "_getAutomine", .noParams, .bool⟩,
  ⟨mode ++ "_mine", .tuple [.hex, .orT .hex .undef], .void⟩,
  ⟨mode ++ "_reset", .arrayOf .any, .void⟩,
  ⟨mode ++ "_setBalance", .tuple [.address, .quantity], .void⟩,
  ⟨mode ++ "_setCode", .tuple [.address, .string], .void⟩,
  ⟨mode ++ "_setCoinbase", .tuple [.address], .void⟩,
  ⟨mode ++ "_setLoggingEnabled", .tuple [.bool], .void⟩,
  ⟨mode ++ "_setMinGasPrice", .tuple [.quantity], .void⟩,
  ⟨mode ++ "_setNextBlockBaseFeePerGas", .tuple [.quantity], .void⟩,
  ⟨mode ++ "_setNonce", .tuple [.address, .quantity], .void⟩,
  ⟨mode ++ "_setRpcUrl", .tuple [.string], .void⟩,
  ⟨mode ++ "_setStorageAt", .tuple [.address, .quantity, .quantity], .void⟩,
  ⟨mode ++ "_stopImpersonatingAccount", .tuple [.address], .void⟩,
  ⟨mode ++ "_increaseTime", .tuple [.number], .quantity⟩,
  ⟨"evm_setAutomine", .tuple [.bool], .void⟩,
  ⟨"evm_setBlockGasLimit", .tuple [.quantity], .void⟩,
  ⟨"evm_increaseTime", .tuple [.quantity], .quantity⟩,
  ⟨mode ++ "_setBlockTimestampInterval", .tuple [.number], .void⟩,
  ⟨mode ++ "_removeBlockTimestampInterval", .noParams, .void⟩,
  ⟨"evm_setIntervalMining", .tuple [.number], .void⟩,
  ⟨"evm_setNextBlockTimestamp", .tuple [.quantity], .void⟩,
  ⟨"evm_snapshot", .noParams, .quantity⟩,
  ⟨"evm_revert", .optTuple [.quantity], .void⟩,
  ⟨"txpool_content", .noParams, .txpoolContentResult⟩,
  ⟨"txpool_inspect", .noParams, .txpoolInspectResult⟩,
  ⟨"txpool_status", .noParams, .txpoolStatusResult⟩,
  ⟨"eth_sendUnsignedTransaction", .tuple [.transactionRequest], .hash⟩
]

/-- EIP1474Methods: the spread of PublicRpcSchema followed by
WalletRpcSchema.  This is the schema the EIP1193Provider dispatches over
(its request field has type EIP1193RequestFn of EIP1474Methods). -/
def eip1474Methods : List RpcSchemaEntry := publicRpcSchema ++ walletRpcSchema

/-- The list of method names of a schema. -/
def methodNames (schema : List RpcSchemaEntry) : List String :=
  schema.map (fun e => e.Method)

/-- Extract of the arms of a schema whose Method field equals m, mirroring
the Extract type operator applied inside EIP1193RequestFn. -/
def extractArms (schema : List RpcSchemaEntry) (m : String) : List RpcSchemaEntry :=
  schema.filter (fun e => e.Method == m)

/-- The result shape an EIP1193RequestFn declares for a call: either a
declared union of the matching arms, or unchecked (the unknown type). -/
inductive ResultShape where
  | declared (ts : List RpcType)
  | unchecked
deriving DecidableEq, Repr

/-- The declared result shape of EIP1193RequestFn, from the _ReturnType
default in src/src/types/eip1193.ts: when a schema constrains the function,
it is the ReturnType of Extract of the arms matching the method tag; with no
schema it is unknown. -/
def eip1193ResultShape (schema : Option (List RpcSchemaEntry)) (m : String) : ResultShape :=
  match schema with
  | some s => .declared ((extractArms s m).map (fun e => e.ReturnType))
  | none => .unchecked

/-- Whether an EIP1193Parameters value with the given method name is
accepted, from src/src/types/eip1193.ts: with a schema, the parameters type
is the union of the schema arms, so the method must be the Method tag of
some arm; with no schema the method is an arbitrary string. -/
def eip1193AcceptsMethod (schema : Option (List RpcSchemaEntry)) (m : String) : Bool :=
  match schema with
  | some s => s.any (fun e => e.Method == m)
  | none => true

/-- The constraint EIP1193Parameters puts on the params field for a given
method: unchecked (params optional with unknown type) when no schema
constrains the function, the arm's declared Parameters when the method
matches an arm, and rejected when a schema is present but no arm matches. -/
inductive ParamsConstraint where
  | unchecked
  | declared (d : ParamsDecl)
  | rejected
deriving DecidableEq, Repr

/-- The params constraint of EIP1193Parameters for a method name, reading
the first matching arm of the schema union. -/
def eip1193ParamsConstraint (schema : Option (List RpcSchemaEntry)) (m : String) :
    ParamsConstraint :=
  match schema with
  | none => .unchecked
  | some s =>
    match s.find? (fun e => e.Method == m) with
    | some e => .declared e.Parameters
    | none => .rejected

/-- Whether a declared Parameters shape is an ordered sequence of positional
values (a tuple, a union of tuples, an array, or absent), as opposed to a
single non-positional object. -/
def paramsIsSequence : ParamsDecl → Bool
  | .noParams => true
  | .tuple _ => true
  | .tupleUnion _ => true
  | .arrayOf _ => true
  | .optTuple _ => true
  | .plain _ => false

/-- Modelled from the spec: numberToHex, imported by the increaseTime action
from src/utils/encoding/toHex.ts, a file that is not under src/.  The spec
defines the wire form of a number as a Quantity: a 0x-prefixed minimal-length
lowercase hexadecimal string, no leading zero digits, with zero itself
encoding as a single zero digit. -/
def numberToHex (n : Nat) : String :=
  "0x" ++ String.mk (Nat.toDigits 16 n)

/-- The arguments the increaseTime action hands to client.request: a method
name and an ordered list of wire-encoded (hex string) params. -/
structure RpcCallArgs where
  method : String
  params : List String
deriving DecidableEq, Repr

/-- A test client as the increaseTime action sees it: just its request
function, from args to a result of some type R.  R abstracts the promise
payload the transport produces. -/
structure TestClient (R : Type) where
  request : RpcCallArgs → R

/-- The increaseTime action from src/unnamed/part_001: it calls
client.request with method evm_increaseTime and params holding the single
element numberToHex seconds, and returns that call's result. -/
def increaseTime {R : Type} (client : TestClient R) (seconds : Nat) : R :=
  client.request { method := "evm_increaseTime", params := [numberToHex seconds] }

/-- A chain descriptor, reduced to the fields the claims mention. -/
structure Chain where
  id : Nat
  name : String
deriving DecidableEq, Repr

/-- A transport, reduced to an identifying field. -/
structure Transport where
  key : String
deriving DecidableEq, Repr

/-- The argument object of createClient: a transport and an optional chain. -/
structure ClientConfig where
  chain : Option Chain
  transport : Transport
deriving DecidableEq, Repr

/-- A client: an explicit struct owning exactly one transport and
zero-or-one chain descriptor. -/
structure Client where
  chain : Option Chain
  transport : Transport
deriving DecidableEq, Repr

/-- Modelled from the spec: createClient (src/clients/createClient.ts is not
under src/; only its type test, src/unnamed/part_000, is).  The spec says to
model a client as an explicit struct owning references to exactly one
transport and zero-or-one chain descriptor, constructed once; the test
checks that the chain field of the built client equals the chain passed in,
and is undefined when none was passed. -/
def createClient (parameters : ClientConfig) : Client :=
  { chain := parameters.chain, transport := parameters.transport }

set_option maxRecDepth 10000

/-- Claim C1: increaseTime is a pure pass-through: for every test client and
every seconds value it calls client.request with method evm_increaseTime and
a params list whose only element is numberToHex seconds, and returns the raw
result of that request unchanged (no decoding, no retry of its own). -/
theorem increaseTime_pass_through {R : Type} (client : TestClient R) (seconds : Nat) :
    increaseTime client seconds =
      client.request ⟨"evm_increaseTime", [numberToHex seconds]⟩ ∧
    ((⟨"evm_increaseTime", [numberToHex seconds]⟩ : RpcCallArgs).params.length = 1 ∧
      (⟨"evm_increaseTime", [numberToHex seconds]⟩ : RpcCallArgs).params =
        [numberToHex seconds]) :=
  ⟨rfl, rfl, rfl⟩

/-- Claim C2: for every method name in the provider schema EIP1474Methods,
the result shape EIP1193RequestFn declares (the ReturnType of the Extract of
the arms whose Method equals that name) collapses to exactly the ReturnType
of that method's entry: narrowing by the method tag yields one arm shape. -/
theorem eip1193RequestFn_result_narrows :
    ∀ e ∈ eip1474Methods,
      eip1193ResultShape (some eip1474Methods) e.Method =
        .declared ((extractArms eip1474Methods e.Method).map (fun a => a.ReturnType)) ∧
      ((extractArms eip1474Methods e.Method).map (fun a => a.ReturnType)).dedup =
        [e.ReturnType] := by
  decide

/-- Witness for claim C2 at the eth_call entry. -/
theorem eip1193RequestFn_result_narrows_witness :
    ((extractArms eip1474Methods "eth_call").map (fun a => a.ReturnType)).dedup =
      [RpcType.hex] :=
  (eip1193RequestFn_result_narrows
    ⟨"eth_call",
      .tupleUnion [[.partialOf .transactionRequest],
                   [.partialOf .transactionRequest, blockSelector]],
      .hex⟩ (by decide)).2

/-- Counterexample for claim C3: with the provider schema constraining the
request function, a method name outside the known table is not accepted (the
EIP1193Parameters union has no arm for it), contradicting the part of the
claim that says such methods are passed through rather than rejected. -/
theorem eip1193Parameters_unknown_method_rejected :
    eip1193AcceptsMethod (some eip1474Methods) "eth_flibbertigibbet" = false ∧
    eip1193ParamsConstraint (some eip1474Methods) "eth_flibbertigibbet" = .rejected := by
  decide

/-- Claim C3 as amended: when no schema constrains the request function, any
method name is accepted, params are unconstrained, and the result shape is
unchecked (unknown); when the provider schema constrains it, a method name
outside the table is rejected rather than passed through. -/
theorem eip1193RequestFn_no_schema_passthrough :
    (∀ m : String, eip1193AcceptsMethod none m = true) ∧
    (∀ m : String, eip1193ParamsConstraint none m = .unchecked) ∧
    (∀ m : String, eip1193ResultShape none m = .unchecked) ∧
    (∀ m : String, m ∉ methodNames eip1474Methods →
      eip1193AcceptsMethod (some eip1474Methods) m = false) := by
  refine ⟨fun _ => rfl, fun _ => rfl, fun _ => rfl, ?_⟩
  intro m hm
  by_contra h
  have h' : eip1193AcceptsMethod (some eip1474Methods) m = true := by
    cases hh : eip1193AcceptsMethod (some eip1474Methods) m
    · exact absurd hh h
    · rfl
  apply hm
  simp only [eip1193AcceptsMethod, List.any_eq_true] at h'
  obtain ⟨e, he, heq⟩ := h'
  simp only [methodNames, List.mem_map]
  simp at heq
  exact ⟨e, he, heq⟩

/-- Witness for claim C3's amended theorem at a concrete unknown method. -/
theorem eip1193RequestFn_no_schema_passthrough_witness :
    eip1193AcceptsMethod none "zzz_unknownMethod" = true ∧
    eip1193AcceptsMethod (some eip1474Methods) "zzz_unknownMethod" = false :=
  ⟨eip1193RequestFn_no_schema_passthrough.1 "zzz_unknownMethod",
   eip1193RequestFn_no_schema_passthrough.2.2.2 "zzz_unknownMethod" (by decide)⟩

/-- Counterexample for claim C4: evm_snapshot is enumerated in the test
schema (here at mode anvil, the mode the increaseTime example in
src/unnamed/part_001 uses), yet it is not a member of EIP1474Methods, the
schema the EIP1193Provider request function dispatches over. -/
theorem eip1474Methods_missing_test_method :
    ("evm_snapshot" ∈ methodNames (testRpcSchema "anvil")) ∧
    ("evm_snapshot" ∉ methodNames eip1474Methods) := by
  decide

/-- Claim C4 as amended: every entry of PublicRpcSchema and of
WalletRpcSchema is a member of EIP1474Methods, the schema the
EIP1193Provider dispatches over; TestRpcSchema is a separate table whose
methods (such as evm_snapshot) are not part of EIP1474Methods. -/
theorem eip1474Methods_spans_public_and_wallet :
    (∀ e ∈ publicRpcSchema, e ∈ eip1474Methods) ∧
    (∀ e ∈ walletRpcSchema, e ∈ eip1474Methods) :=
  ⟨fun _ he => List.mem_append_left _ he, fun _ he => List.mem_append_right _ he⟩

/-- Witness for claim C4's amended theorem at the eth_chainId entry. -/
theorem eip1474Methods_spans_public_and_wallet_witness :
    (⟨"eth_chainId", .noParams, .quantity⟩ : RpcSchemaEntry) ∈ eip1474Methods :=
  eip1474Methods_spans_public_and_wallet.1
    ⟨"eth_chainId", .noParams, .quantity⟩ (by decide)

/-- Counterexample for claim C5: the wallet_watchAsset entry declares its
Parameters as the plain object type WatchAssetParams, not as an ordered
tuple of positional values. -/
theorem walletRpcSchema_watchAsset_params_not_sequence :
    (walletRpcSchema.find? (fun e => e.Method == "wallet_watchAsset")).map
      (fun e => paramsIsSequence e.Parameters) = some false := by
  decide

/-- Claim C5 as amended: every entry of the public and test schemas declares
its Parameters as an ordered sequence of positional values (or declares
none), and so does every wallet entry except wallet_watchAsset, whose
Parameters is a single non-positional object. -/
theorem rpc_schema_params_are_sequences :
    (∀ e ∈ publicRpcSchema, paramsIsSequence e.Parameters = true) ∧
    (∀ e ∈ walletRpcSchema,
      paramsIsSequence e.Parameters = (e.Method != "wallet_watchAsset")) ∧
    (∀ mode : String,
      (testRpcSchema mode).all (fun e => paramsIsSequence e.Parameters) = true) :=
  ⟨by decide, by decide, fun _ => rfl⟩

/-- Witness for claim C5's amended theorem at the web3_sha3 entry. -/
theorem rpc_schema_params_are_sequences_witness :
    paramsIsSequence (ParamsDecl.tuple [RpcType.hash]) = true :=
  rpc_schema_params_are_sequences.1 ⟨"web3_sha3", .tuple [.hash], .string⟩ (by decide)

/-- Claim C6: the unique eth_call entry of PublicRpcSchema accepts either
exactly one parameter (a Partial of TransactionRequest) or exactly two (that
partial transaction followed by a block selector), with ReturnType Hex; the
unique eth_sendRawTransaction entry accepts exactly one Hex parameter, with
ReturnType Hash. -/
theorem eth_call_and_sendRawTransaction_entries :
    extractArms publicRpcSchema "eth_call" =
      [⟨"eth_call",
        .tupleUnion [[.partialOf .transactionRequest],
                     [.partialOf .transactionRequest, blockSelector]],
        .hex⟩] ∧
    extractArms publicRpcSchema "eth_sendRawTransaction" =
      [⟨"eth_sendRawTransaction", .tuple [.hex], .hash⟩] := by
  decide

/-- Counterexample for claim C7: the test schema (at mode anvil, the mode
the increaseTime example in src/unnamed/part_001 uses) has no entry named
evm_mine; the mine entry is mode-prefixed (anvil_mine). -/
theorem testRpcSchema_no_evm_mine :
    ("evm_mine" ∉ methodNames (testRpcSchema "anvil")) ∧
    ("anvil_mine" ∈ methodNames (testRpcSchema "anvil")) := by
  decide

/-- Claim C7 as amended: for every mode, the test schema contains the
literal entries evm_snapshot (no parameters, Quantity result), evm_revert
(optional single snapshot-id parameter), evm_increaseTime (single seconds
parameter, Quantity result), and a mode-prefixed mine entry (count and
optional interval parameters); the literal name evm_mine appears only when
the mode string itself is evm. -/
theorem testRpcSchema_dev_node_methods :
    ∀ mode : String,
      (⟨"evm_snapshot", .noParams, .quantity⟩ : RpcSchemaEntry) ∈ testRpcSchema mode ∧
      (⟨"evm_revert", .optTuple [.quantity], .void⟩ : RpcSchemaEntry) ∈ testRpcSchema mode ∧
      (⟨"evm_increaseTime", .tuple [.quantity], .quantity⟩ : RpcSchemaEntry) ∈
        testRpcSchema mode ∧
      (⟨mode ++ "_mine", .tuple [.hex, .orT .hex .undef], .void⟩ : RpcSchemaEntry) ∈
        testRpcSchema mode := by
  intro mode
  refine ⟨?_, ?_, ?_, ?_⟩ <;>
    (unfold testRpcSchema;
     repeat first | exact List.Mem.head _ | apply List.Mem.tail)

/-- Claim C8: a client built by createClient owns zero-or-one chain fixed at
construction: with a chain passed, the client's chain field equals exactly
that chain; with no chain passed, the client's chain field is none (the
model of undefined). -/
theorem createClient_chain_field (t : Transport) (c : Chain) :
    (createClient ⟨some c, t⟩).chain = some c ∧
    (createClient ⟨none, t⟩).chain = none :=
  ⟨rfl, rfl⟩

/-- Claim C9: any public entry and wallet entry sharing a method name
declare identical Parameters and ReturnType shapes; the shared names are
exactly eth_chainId, eth_estimateGas and eth_sendRawTransaction; hence the
concatenation EIP1474Methods assigns every method name a single shape and
narrowing by method name is well-defined. -/
theorem shared_methods_have_identical_shapes :
    (∀ e1 ∈ publicRpcSchema, ∀ e2 ∈ walletRpcSchema, e1.Method = e2.Method →
      e1.Parameters = e2.Parameters ∧ e1.ReturnType = e2.ReturnType) ∧
    ((methodNames publicRpcSchema).filter
      (fun m => m ∈ methodNames walletRpcSchema) =
        ["eth_chainId", "eth_estimateGas", "eth_sendRawTransaction"]) ∧
    (∀ e1 ∈ eip1474Methods, ∀ e2 ∈ eip1474Methods, e1.Method = e2.Method →
      e1.Parameters = e2.Parameters ∧ e1.ReturnType = e2.ReturnType) := by
  decide

/-- Witness for claim C9 at the two eth_chainId entries. -/
theorem shared_methods_have_identical_shapes_witness :
    ParamsDecl.noParams = ParamsDecl.noParams ∧ RpcType.quantity = RpcType.quantity :=
  shared_methods_have_identical_shapes.1
    ⟨"eth_chainId", .noParams, .quantity⟩ (by decide)
    ⟨"eth_chainId", .noParams, .quantity⟩ (by decide) rfl

/-- Claim C10: the wallet schema declares eth_sign with Parameters
[address, data] and personal_sign with Parameters [data, address]: the two
message-signing methods take their two arguments in opposite orders. -/
theorem eth_sign_personal_sign_opposite_order :
    extractArms walletRpcSchema "eth_sign" =
      [⟨"eth_sign", .tuple [.address, .hex], .hex⟩] ∧
    extractArms walletRpcSchema "personal_sign" =
      [⟨"personal_sign", .tuple [.hex, .address], .hex⟩] ∧
    ([RpcType.address, RpcType.hex].reverse = [RpcType.hex, RpcType.address]) := by
  decide
